import Mathlib

/-!
Verification of the Quay composition root (`app.py`) and its progressive
registry-data-model routing controller.

The first half embeds the module-level startup script of `app.py` as pure
Lean functions over an explicit configuration map: the `V3_UPGRADE_MODE`
validation block (lines 114-128), the `registry_model.setup_split` call site
(lines 130-137), the `QUAY_OVERRIDE_CONFIG` environment merge (lines 104-106),
the distributed-storage-preference override (lines 140-142), the `SECRET_KEY`
defaulting (lines 144-147), the secure-session-cookie rule (lines 149-154) and
the `DATABASE_SECRET_KEY` check (lines 335-336).  Python values that can live
in `app.config` are modelled by `ConfigValue` (with `pynone` standing for
Python's `None`), and Python truthiness by `ConfigValue.truthy`.

The second half models the routing controller itself (rollout policy,
migration-phase state machine and router), whose implementation lives in
`data/registry_model` and is not among the files under study; those
definitions are taken from the design document and are marked as such.
-/

namespace Quay

/-- A Python value as it occurs in `app.config`: `pynone` is Python `None`,
the other constructors carry booleans, strings, numbers and sets/lists of
namespace names (whitelists). -/
inductive ConfigValue where
  | pynone : ConfigValue
  | vbool : Bool → ConfigValue
  | vstr : String → ConfigValue
  | vnum : Rat → ConfigValue
  | vset : List String → ConfigValue
deriving DecidableEq, Repr

/-- Python truthiness of a config value: `None`, `False`, `""`, `0` and the
empty collection are falsy, everything else is truthy. -/
def ConfigValue.truthy : ConfigValue → Bool
  | .pynone => false
  | .vbool b => b
  | .vstr s => !(s == "")
  | .vnum q => !(q == 0)
  | .vset l => !l.isEmpty

/-- `app.config` as a partial map from key to stored value.  `none` means the
key is absent from the dictionary; `some .pynone` means the key is present and
stores Python `None`. -/
abbrev Config : Type := String → Option ConfigValue

/-- Python `config.get(k)`: the stored value, or `None` when the key is
absent.  An absent key and a stored `None` are indistinguishable here, exactly
as for `dict.get` with its default of `None`. -/
def Config.get (cfg : Config) (k : String) : ConfigValue :=
  (cfg k).getD .pynone

/-- Python `config.get(k, d)`: the stored value when the key is present (even
when that value is `None`), otherwise the default `d`. -/
def Config.getD (cfg : Config) (k : String) (d : ConfigValue) : ConfigValue :=
  (cfg k).getD d

/-- Python `config[k] = v`. -/
def Config.set (cfg : Config) (k : String) (v : ConfigValue) : Config :=
  fun k2 => if k2 = k then some v else cfg k2

/-- Python `config.update(obj)` for a JSON object `obj`, as in
`app.config.update(environ_config)` (app.py line 106): keys present in `obj`
are overwritten, all other keys keep their previous value.  A JSON object has
no repeated keys, so `List.lookup` is its lookup. -/
def Config.update (cfg : Config) (obj : List (String × ConfigValue)) : Config :=
  fun k =>
    match obj.lookup k with
    | some v => some v
    | none => cfg k

/-- Python `a or b` restricted to the uses on app.py lines 133-135: the left
operand when it is truthy, otherwise the right operand. -/
def pyOr (v d : ConfigValue) : ConfigValue :=
  if v.truthy then v else d

/-- The five phase tokens accepted by the `V3_UPGRADE_MODE` check
(app.py lines 121-127). -/
def validV3Tokens : List String :=
  ["background", "complete", "production-transition", "post-oci-rollout",
   "post-oci-roll-back-compat"]

/-- The `V3_UPGRADE_MODE` validation block, app.py lines 114-128: only runs
when the process is neither testing nor building and `SETUP_COMPLETE` is
truthy; then a missing (`None`) mode raises, and a mode different from all
five accepted tokens raises. -/
def v3UpgradeCheck (is_testing is_building : Bool) (cfg : Config) :
    Except String Unit :=
  if !is_testing && !is_building && (cfg.getD "SETUP_COMPLETE" (.vbool false)).truthy then
    let v3_upgrade_mode := cfg.get "V3_UPGRADE_MODE"
    if v3_upgrade_mode = .pynone then
      .error "Configuration flag `V3_UPGRADE_MODE` must be set. Please check the upgrade docs"
    else if v3_upgrade_mode ≠ .vstr "background" ∧ v3_upgrade_mode ≠ .vstr "complete" ∧
        v3_upgrade_mode ≠ .vstr "production-transition" ∧
        v3_upgrade_mode ≠ .vstr "post-oci-rollout" ∧
        v3_upgrade_mode ≠ .vstr "post-oci-roll-back-compat" then
      .error "Invalid value for config `V3_UPGRADE_MODE`. Please check the upgrade docs"
    else
      .ok ()
  else
    .ok ()

/-- The arguments app.py lines 132-137 pass to `registry_model.setup_split`,
with Python `or` applied to the first three and the upgrade mode passed raw. -/
structure SetupSplitArgs where
  oci_namespace_proportion : ConfigValue
  oci_namespace_whitelist : ConfigValue
  v22_namespace_whitelist : ConfigValue
  v3_upgrade_mode : ConfigValue
deriving DecidableEq, Repr

/-- The argument tuple of the `registry_model.setup_split` call,
app.py lines 132-137. -/
def setupSplitArgs (cfg : Config) : SetupSplitArgs where
  oci_namespace_proportion := pyOr (cfg.get "OCI_NAMESPACE_PROPORTION") (.vnum 0)
  oci_namespace_whitelist := pyOr (cfg.get "OCI_NAMESPACE_WHITELIST") (.vset [])
  v22_namespace_whitelist := pyOr (cfg.get "V22_NAMESPACE_WHITELIST") (.vset [])
  v3_upgrade_mode := cfg.get "V3_UPGRADE_MODE"

/-- Modelled from the spec: `generate_secret_key` lives in
`util/config/configutil`, which is not among the files under study; the spec
only needs that it produces a fresh in-memory secret key, never `None`.  It is
modelled as producing a string value. -/
def generate_secret_key : ConfigValue := .vstr "generated-secret-key"

/-- The storage-preference override, app.py lines 140-142: a non-empty
`QUAY_DISTRIBUTED_STORAGE_PREFERENCE` environment value replaces the
`DISTRIBUTED_STORAGE_PREFERENCE` key. -/
def storagePrefStep (cfg : Config) (storagePref : List String) : Config :=
  if storagePref.isEmpty then cfg
  else cfg.set "DISTRIBUTED_STORAGE_PREFERENCE" (.vset storagePref)

/-- The `SECRET_KEY` defaulting, app.py lines 144-147: Python
`app.config["SECRET_KEY"]` raises `KeyError` on an absent key; a stored
`None` is replaced by a freshly generated key. -/
def secretKeyStep (cfg : Config) : Except String Config :=
  match cfg "SECRET_KEY" with
  | none => .error "KeyError: SECRET_KEY"
  | some sk =>
    .ok (if sk = .pynone then cfg.set "SECRET_KEY" generate_secret_key else cfg)

/-- The secure-session-cookie rule, app.py lines 149-154: when the preferred
URL scheme is https and `FORCE_NONSECURE_SESSION_COOKIE` is falsy, the
session cookie is marked secure. -/
def cookieStep (cfg : Config) : Except String Config :=
  match cfg "PREFERRED_URL_SCHEME" with
  | none => .error "KeyError: PREFERRED_URL_SCHEME"
  | some scheme =>
    .ok (if scheme = .vstr "https" ∧
          (cfg.getD "FORCE_NONSECURE_SESSION_COOKIE" (.vbool false)).truthy = false then
        cfg.set "SESSION_COOKIE_SECURE" (.vbool true)
      else cfg)

/-- The `DATABASE_SECRET_KEY` check, app.py lines 335-336. -/
def databaseKeyStep (cfg : Config) : Except String Config :=
  if cfg.get "DATABASE_SECRET_KEY" = .pynone ∧
      (cfg.getD "SETUP_COMPLETE" (.vbool false)).truthy = true then
    .error "Missing DATABASE_SECRET_KEY in config; did you perhaps forget to add it?"
  else
    .ok cfg

/-- The configuration-mutating startup steps after the `setup_split` call, in
source order: storage preference, `SECRET_KEY` defaulting, session cookie,
`DATABASE_SECRET_KEY` check. -/
def afterSplit (cfg : Config) (storagePref : List String) : Except String Config :=
  match secretKeyStep (storagePrefStep cfg storagePref) with
  | .error e => .error e
  | .ok cfg2 =>
    match cookieStep cfg2 with
    | .error e => .error e
    | .ok cfg3 => databaseKeyStep cfg3

/-- The observable outcome of running the startup script on a configuration:
the list of `registry_model.setup_split` calls made (in order), and either the
final `app.config` or the first exception raised. -/
structure StartupResult where
  splitCalls : List SetupSplitArgs
  outcome : Except String Config

/-- The startup script of app.py from the `V3_UPGRADE_MODE` check onwards,
on an already-merged configuration: a failing check raises before
`setup_split` is invoked; otherwise `setup_split` is invoked exactly once and
the remaining steps run. -/
def startupFromConfig (is_testing is_building : Bool) (cfg : Config)
    (storagePref : List String) : StartupResult :=
  match v3UpgradeCheck is_testing is_building cfg with
  | .error e => ⟨[], .error e⟩
  | .ok _ => ⟨[setupSplitArgs cfg], afterSplit cfg storagePref⟩

/-- The startup script including the environment-override merge of app.py
lines 104-106: `environ_config` is the JSON object parsed from
`QUAY_OVERRIDE_CONFIG` (the empty object when the variable is unset), merged
into the file-loaded configuration before everything else runs. -/
def startup (is_testing is_building : Bool) (fileCfg : Config)
    (environ_config : List (String × ConfigValue)) (storagePref : List String) :
    StartupResult :=
  startupFromConfig is_testing is_building (fileCfg.update environ_config) storagePref

/-! ## The routing controller, modelled from the spec

`registry_model.setup_split` and the router it configures live in
`data/registry_model`, outside the files under study; the definitions below
follow the design document: §3 (data model), §4.1-§4.4 (classifier, rollout
policy, phase state machine, router) and §7 (error taxonomy). -/

/-- Modelled from the spec: the two internal data-model implementations
(§3, ModelVariant). -/
inductive ModelVariant where
  | Legacy : ModelVariant
  | Modern : ModelVariant
deriving DecidableEq, Repr, Fintype

/-- Modelled from the spec: the migration campaign phases (§3,
MigrationPhase), the closed enumeration behind the five
`V3_UPGRADE_MODE` tokens. -/
inductive MigrationPhase where
  | Background : MigrationPhase
  | ProductionTransition : MigrationPhase
  | PostCutoverRollout : MigrationPhase
  | Complete : MigrationPhase
  | RollbackCompat : MigrationPhase
deriving DecidableEq, Repr, Fintype

/-- Modelled from the spec: the configuration-error taxonomy of §7 that the
construction and reload paths surface. -/
inductive ConfigError where
  | invalidProportion : ConfigError
  | illegalTransition : ConfigError
deriving DecidableEq, Repr

/-- Modelled from the spec: the rollout policy of §4.2 — the proportion and
the two allow-lists (`modernOverrides` forcing Modern, and
`secondarySchemaOverrides` for the orthogonal schema capability). -/
structure RolloutPolicy where
  proportion : Rat
  modernOverrides : List String
  secondarySchemaOverrides : List String
deriving DecidableEq, Repr

/-- Modelled from the spec: the namespace classifier of §4.1 — a
deterministic pseudo-uniform hash of the tenant identifier normalized into
[0, 1).  Modelled as a polynomial rolling hash reduced modulo 1000. -/
def bucket (t : String) : Rat :=
  ((t.foldl (fun a c => (a * 31 + c.toNat) % 1000003) 7 % 1000 : Nat) : Rat) / 1000

/-- Modelled from the spec: the rollout-policy decision of §4.2 — membership
in `modernOverrides` forces Modern, otherwise the tenant's bucket is compared
with the proportion. -/
def RolloutPolicy.decide (p : RolloutPolicy) (t : String) : ModelVariant :=
  if t ∈ p.modernOverrides then .Modern
  else if bucket t < p.proportion then .Modern
  else .Legacy

/-- Modelled from the spec: construction of a rollout policy (§4.2/§7) —
the validating side of `registry_model.setup_split`: a proportion outside
[0, 1] is a configuration error rejected at construction, never clamped. -/
def mkRolloutPolicy (proportion : Rat)
    (modernOverrides secondarySchemaOverrides : List String) :
    Except ConfigError RolloutPolicy :=
  if proportion < 0 ∨ 1 < proportion then .error .invalidProportion
  else .ok ⟨proportion, modernOverrides, secondarySchemaOverrides⟩

/-- Modelled from the spec: the routing verdict of §3 (RoutingDecision) —
primary model, optional dual-write secondary, and the read-translation
flag. -/
structure RoutingDecision where
  primary : ModelVariant
  secondary : Option ModelVariant
  readTranslation : Bool
deriving DecidableEq, Repr

/-- Modelled from the spec: the immutable policy-and-phase snapshot the
router reads (§3, Lifecycle). -/
structure Snapshot where
  policy : RolloutPolicy
  phase : MigrationPhase
deriving DecidableEq, Repr

/-- Modelled from the spec: the router's decision function of §4.4,
composing the rollout policy with the phase table of §4.3: `Complete` is a
terminal short-circuit to Modern for every tenant; `ProductionTransition`
dual-writes Legacy for Modern-decision tenants; `RollbackCompat` keeps the
base decision but forces read translation. -/
def route (snap : Snapshot) (t : String) : RoutingDecision :=
  match snap.phase with
  | .Complete => ⟨.Modern, none, false⟩
  | .Background => ⟨snap.policy.decide t, none, false⟩
  | .ProductionTransition =>
    match snap.policy.decide t with
    | .Modern => ⟨.Modern, some .Legacy, false⟩
    | .Legacy => ⟨.Legacy, none, false⟩
  | .PostCutoverRollout => ⟨snap.policy.decide t, none, false⟩
  | .RollbackCompat => ⟨snap.policy.decide t, none, true⟩

/-- Modelled from the spec: the linear order of the forward campaign
(§4.3's transition rule) — `Background → ProductionTransition →
PostCutoverRollout → Complete`, with `RollbackCompat` outside the line. -/
def rank : MigrationPhase → Nat
  | .Background => 0
  | .ProductionTransition => 1
  | .PostCutoverRollout => 2
  | .Complete => 3
  | .RollbackCompat => 4

/-- Modelled from the spec: legality of a phase transition (§4.3) — forward
(and skip-forward) moves along the line are legal, every phase may enter
`RollbackCompat`, and the single recovery edge leaves `RollbackCompat` for
`ProductionTransition`; everything else is illegal. -/
def legalTransition (a b : MigrationPhase) : Bool :=
  (b == .RollbackCompat) ||
  (a == .RollbackCompat && b == .ProductionTransition) ||
  (!(a == .RollbackCompat) && !(b == .RollbackCompat) && rank a ≤ rank b)

/-- Modelled from the spec: the reload operation of §4.4 — the requested
phase transition is validated against the current phase before the new
snapshot is installed; an illegal transition fails the reload entirely. -/
def reload (cur : Snapshot) (newPolicy : RolloutPolicy)
    (newPhase : MigrationPhase) : Except ConfigError Snapshot :=
  if legalTransition cur.phase newPhase then .ok ⟨newPolicy, newPhase⟩
  else .error .illegalTransition

/-- Modelled from the spec: the snapshot actually serving traffic after a
reload attempt (§4.4) — the new snapshot on success, the prior snapshot when
the reload was rejected. -/
def applyReload (cur : Snapshot) (newPolicy : RolloutPolicy)
    (newPhase : MigrationPhase) : Snapshot :=
  match reload cur newPolicy newPhase with
  | .ok s => s
  | .error _ => cur

/-! ### Concrete configurations used to evaluate the theorems -/

/-- The empty configuration: every key absent. -/
def emptyConfig : Config := fun _ => none

/-- A configuration with `SETUP_COMPLETE = True` and every other key absent
(in particular `V3_UPGRADE_MODE` and the three split keys are absent). -/
def cfgSetupOnly : Config :=
  fun k => if k = "SETUP_COMPLETE" then some (.vbool true) else none

/-- A configuration with `SETUP_COMPLETE = True` and an unrecognized phase
token. -/
def cfgBadToken : Config :=
  fun k =>
    if k = "SETUP_COMPLETE" then some (.vbool true)
    else if k = "V3_UPGRADE_MODE" then some (.vstr "bogus-phase")
    else none

/-- A configuration that reaches the end of startup successfully:
`SECRET_KEY` stored as `None`, an http URL scheme, setup not complete. -/
def cfgOk : Config :=
  fun k =>
    if k = "SECRET_KEY" then some .pynone
    else if k = "PREFERRED_URL_SCHEME" then some (.vstr "http")
    else none

/-! ## Helper lemmas -/

theorem config_set_get_same (c : Config) (k : String) (v : ConfigValue) :
    Config.set c k v k = some v := by
  simp [Config.set]

theorem config_set_get_other (c : Config) (k k2 : String) (v : ConfigValue)
    (h : ¬ k2 = k) : Config.set c k v k2 = c k2 := by
  simp [Config.set, h]

theorem startupFromConfig_check_error (t b : Bool) (cfg : Config)
    (sp : List String) (e : String) (h : v3UpgradeCheck t b cfg = .error e) :
    startupFromConfig t b cfg sp = ⟨[], .error e⟩ := by
  simp [startupFromConfig, h]

theorem startupFromConfig_check_ok (t b : Bool) (cfg : Config)
    (sp : List String) (h : v3UpgradeCheck t b cfg = .ok ()) :
    startupFromConfig t b cfg sp = ⟨[setupSplitArgs cfg], afterSplit cfg sp⟩ := by
  simp [startupFromConfig, h]

theorem secretKeyStep_ok (c c' : Config) (h : secretKeyStep c = .ok c') :
    ∃ v, c' "SECRET_KEY" = some v ∧ v ≠ ConfigValue.pynone := by
  unfold secretKeyStep at h
  cases hsk : c "SECRET_KEY" with
  | none => rw [hsk] at h; exact Except.noConfusion h
  | some sk =>
    rw [hsk] at h
    simp only [Except.ok.injEq] at h
    subst h
    by_cases hp : sk = ConfigValue.pynone
    · rw [if_pos hp]
      exact ⟨generate_secret_key, config_set_get_same _ _ _, by simp [generate_secret_key]⟩
    · rw [if_neg hp]
      exact ⟨sk, hsk, hp⟩

theorem cookieStep_preserves_secret (c c' : Config) (h : cookieStep c = .ok c') :
    c' "SECRET_KEY" = c "SECRET_KEY" := by
  unfold cookieStep at h
  cases hps : c "PREFERRED_URL_SCHEME" with
  | none => rw [hps] at h; exact Except.noConfusion h
  | some scheme =>
    rw [hps] at h
    simp only [Except.ok.injEq] at h
    subst h
    split
    · exact config_set_get_other _ _ _ _ (by decide)
    · rfl

theorem databaseKeyStep_ok (c c' : Config) (h : databaseKeyStep c = .ok c') :
    c' = c := by
  unfold databaseKeyStep at h
  split at h
  · exact Except.noConfusion h
  · simp only [Except.ok.injEq] at h
    exact h.symm

/-! ## The claims -/

/-- C1: at startup, with `SETUP_COMPLETE` truthy and the process neither
testing nor building, a configured `V3_UPGRADE_MODE` string outside the five
accepted tokens makes startup raise (no `setup_split` call is made, so no
default phase is silently substituted), and each of the five tokens passes
the check, with the token passed through to `setup_split` verbatim. -/
theorem c1_phase_token_validation (cfg : Config) (sp : List String) (s : String)
    (hsetup : (Config.getD cfg "SETUP_COMPLETE" (.vbool false)).truthy = true)
    (hmode : Config.get cfg "V3_UPGRADE_MODE" = .vstr s) :
    (s ∉ validV3Tokens →
      startupFromConfig false false cfg sp =
        ⟨[], .error "Invalid value for config `V3_UPGRADE_MODE`. Please check the upgrade docs"⟩) ∧
    (s ∈ validV3Tokens →
      v3UpgradeCheck false false cfg = .ok () ∧
      (startupFromConfig false false cfg sp).splitCalls = [setupSplitArgs cfg] ∧
      (setupSplitArgs cfg).v3_upgrade_mode = .vstr s) := by
  constructor
  · intro hnot
    simp only [validV3Tokens, List.mem_cons, List.not_mem_nil, or_false, not_or] at hnot
    obtain ⟨h1, h2, h3, h4, h5⟩ := hnot
    have hcheck : v3UpgradeCheck false false cfg =
        .error "Invalid value for config `V3_UPGRADE_MODE`. Please check the upgrade docs" := by
      simp [v3UpgradeCheck, hsetup, hmode, h1, h2, h3, h4, h5]
    simp [startupFromConfig, hcheck]
  · intro hmem
    have hcheck : v3UpgradeCheck false false cfg = .ok () := by
      simp only [validV3Tokens, List.mem_cons, List.not_mem_nil, or_false] at hmem
      rcases hmem with h | h | h | h | h <;> simp [v3UpgradeCheck, hsetup, hmode, h]
    exact ⟨hcheck, by simp [startupFromConfig, hcheck], hmode⟩

/-- C1 witness: the configuration storing the unknown token `bogus-phase`
with setup complete makes startup fail before any `setup_split` call. -/
theorem c1_phase_token_validation_witness :
    startupFromConfig false false cfgBadToken [] =
      ⟨[], .error "Invalid value for config `V3_UPGRADE_MODE`. Please check the upgrade docs"⟩ :=
  (c1_phase_token_validation cfgBadToken [] "bogus-phase" rfl rfl).1 (by decide)

/-- C2: at startup, with `SETUP_COMPLETE` truthy and the process neither
testing nor building, an absent (`None`) `V3_UPGRADE_MODE` raises before the
registry-model split is configured: startup ends in the error with an empty
list of `setup_split` calls. -/
theorem c2_missing_phase_fatal (cfg : Config) (sp : List String)
    (hsetup : (Config.getD cfg "SETUP_COMPLETE" (.vbool false)).truthy = true)
    (hmode : Config.get cfg "V3_UPGRADE_MODE" = .pynone) :
    startupFromConfig false false cfg sp =
      ⟨[], .error "Configuration flag `V3_UPGRADE_MODE` must be set. Please check the upgrade docs"⟩ := by
  have hcheck : v3UpgradeCheck false false cfg =
      .error "Configuration flag `V3_UPGRADE_MODE` must be set. Please check the upgrade docs" := by
    simp [v3UpgradeCheck, hsetup, hmode]
  simp [startupFromConfig, hcheck]

/-- C2 witness: the configuration with only `SETUP_COMPLETE = True` (so the
phase key is absent) aborts startup with the missing-flag error. -/
theorem c2_missing_phase_fatal_witness :
    startupFromConfig false false cfgSetupOnly [] =
      ⟨[], .error "Configuration flag `V3_UPGRADE_MODE` must be set. Please check the upgrade docs"⟩ :=
  c2_missing_phase_fatal cfgSetupOnly [] rfl rfl

/-- C3: a rollout proportion outside [0, 1] is rejected at construction as a
configuration error, and an accepted construction carries the proportion
unchanged (never clamped) with the proportion necessarily in [0, 1]. -/
theorem c3_proportion_validation :
    (∀ (p : Rat) (mo so : List String), (p < 0 ∨ 1 < p) →
      mkRolloutPolicy p mo so = .error .invalidProportion) ∧
    (∀ (p : Rat) (mo so : List String) (pol : RolloutPolicy),
      mkRolloutPolicy p mo so = .ok pol →
      pol.proportion = p ∧ 0 ≤ p ∧ p ≤ 1) := by
  constructor
  · intro p mo so h
    simp [mkRolloutPolicy, h]
  · intro p mo so pol h
    by_cases hb : p < 0 ∨ 1 < p
    · rw [mkRolloutPolicy, if_pos hb] at h
      exact Except.noConfusion h
    · rw [mkRolloutPolicy, if_neg hb] at h
      simp only [Except.ok.injEq] at h
      subst h
      push_neg at hb
      exact ⟨rfl, hb.1, hb.2⟩

/-- C4: reload-time phase-transition legality: `Complete → ProductionTransition`
fails and the prior `Complete` snapshot stays active; `Background →
RollbackCompat` and `RollbackCompat → ProductionTransition` succeed;
`RollbackCompat → PostCutoverRollout` fails; and in general every backward
transition is illegal except entering `RollbackCompat` and the recovery edge
`RollbackCompat → ProductionTransition`. -/
theorem c4_transition_legality :
    (∀ pol np : RolloutPolicy,
      reload ⟨pol, .Complete⟩ np .ProductionTransition = .error .illegalTransition ∧
      applyReload ⟨pol, .Complete⟩ np .ProductionTransition = ⟨pol, .Complete⟩ ∧
      reload ⟨pol, .Background⟩ np .RollbackCompat = .ok ⟨np, .RollbackCompat⟩ ∧
      reload ⟨pol, .RollbackCompat⟩ np .ProductionTransition = .ok ⟨np, .ProductionTransition⟩ ∧
      reload ⟨pol, .RollbackCompat⟩ np .PostCutoverRollout = .error .illegalTransition) ∧
    (∀ a b : MigrationPhase, rank b < rank a → legalTransition a b = true →
      b = .RollbackCompat ∨ (a = .RollbackCompat ∧ b = .ProductionTransition)) :=
  ⟨fun _ _ => ⟨rfl, rfl, rfl, rfl, rfl⟩, by decide⟩

/-- C5: in the `Complete` phase the router's primary is Modern for every
tenant and every policy, in particular for proportion 0 with both allow-lists
empty (terminal short-circuit). -/
theorem c5_complete_short_circuit :
    ∀ (pol : RolloutPolicy) (t : String),
      (route ⟨pol, .Complete⟩ t).primary = .Modern ∧
      route ⟨⟨0, [], []⟩, .Complete⟩ t = ⟨.Modern, none, false⟩ :=
  fun _ _ => ⟨rfl, rfl⟩

/-- C6: for every tenant in `modernOverrides` and every proportion in [0, 1],
the rollout-policy decision is Modern: override membership beats
proportion-based bucketing. -/
theorem c6_override_precedence (pol : RolloutPolicy) (t : String)
    (hmem : t ∈ pol.modernOverrides)
    (_h0 : 0 ≤ pol.proportion) (_h1 : pol.proportion ≤ 1) :
    RolloutPolicy.decide pol t = .Modern := by
  simp [RolloutPolicy.decide, hmem]

/-- C6 witness: tenant `acme`, listed in `modernOverrides`, is routed Modern
under proportion 1/2. -/
theorem c6_override_precedence_witness :
    RolloutPolicy.decide ⟨1/2, ["acme"], []⟩ "acme" = .Modern :=
  c6_override_precedence ⟨1/2, ["acme"], []⟩ "acme" (List.mem_cons_self _ _)
    (by norm_num) (by norm_num)

/-- C7 counterexample: with `SETUP_COMPLETE = True` and the three split keys
absent, startup raises at the `V3_UPGRADE_MODE` check and `setup_split` is
called zero times, not exactly once as the claim states. -/
theorem c7_counterexample :
    (cfgSetupOnly "OCI_NAMESPACE_PROPORTION" = none ∧
     cfgSetupOnly "OCI_NAMESPACE_WHITELIST" = none ∧
     cfgSetupOnly "V22_NAMESPACE_WHITELIST" = none) ∧
    (startupFromConfig false false cfgSetupOnly []).splitCalls = [] ∧
    (startupFromConfig false false cfgSetupOnly []).outcome =
      .error "Configuration flag `V3_UPGRADE_MODE` must be set. Please check the upgrade docs" :=
  ⟨⟨rfl, rfl, rfl⟩, rfl, rfl⟩

/-- C7 (amended): whenever the `V3_UPGRADE_MODE` check does not abort startup,
a configuration with `OCI_NAMESPACE_PROPORTION`, `OCI_NAMESPACE_WHITELIST` and
`V22_NAMESPACE_WHITELIST` absent or `None` still reaches `setup_split`, which
is called exactly once, with proportion 0 and two empty override sets. -/
theorem c7_default_split (t b : Bool) (cfg : Config) (sp : List String)
    (h1 : Config.get cfg "OCI_NAMESPACE_PROPORTION" = .pynone)
    (h2 : Config.get cfg "OCI_NAMESPACE_WHITELIST" = .pynone)
    (h3 : Config.get cfg "V22_NAMESPACE_WHITELIST" = .pynone)
    (hok : v3UpgradeCheck t b cfg = .ok ()) :
    (startupFromConfig t b cfg sp).splitCalls =
      [⟨.vnum 0, .vset [], .vset [], Config.get cfg "V3_UPGRADE_MODE"⟩] := by
  have hargs : setupSplitArgs cfg =
      ⟨.vnum 0, .vset [], .vset [], Config.get cfg "V3_UPGRADE_MODE"⟩ := by
    simp [setupSplitArgs, pyOr, h1, h2, h3, ConfigValue.truthy]
  simp [startupFromConfig, hok, hargs]

/-- C7 witness: on the empty configuration startup performs exactly one
`setup_split` call, with proportion 0, two empty sets and a `None` mode. -/
theorem c7_default_split_witness :
    (startupFromConfig false false emptyConfig []).splitCalls =
      [⟨.vnum 0, .vset [], .vset [], .pynone⟩] :=
  c7_default_split false false emptyConfig [] rfl rfl rfl rfl

/-- C8: when the process is testing or building, or `SETUP_COMPLETE` is not
truthy, the phase check is skipped (it returns ok whatever the mode is), a
single `setup_split` call is still made, and the raw `V3_UPGRADE_MODE` value
is passed to it unvalidated. -/
theorem c8_check_skipped (t b : Bool) (cfg : Config) (sp : List String)
    (h : t = true ∨ b = true ∨
      (Config.getD cfg "SETUP_COMPLETE" (.vbool false)).truthy = false) :
    v3UpgradeCheck t b cfg = .ok () ∧
    startupFromConfig t b cfg sp = ⟨[setupSplitArgs cfg], afterSplit cfg sp⟩ ∧
    (setupSplitArgs cfg).v3_upgrade_mode = Config.get cfg "V3_UPGRADE_MODE" := by
  have hcheck : v3UpgradeCheck t b cfg = .ok () := by
    rcases h with h | h | h <;> simp [v3UpgradeCheck, h]
  exact ⟨hcheck, by simp [startupFromConfig, hcheck], rfl⟩

/-- C8 witness: in testing mode the unknown token `bogus-phase` passes
through to `setup_split` without any exception from the phase check. -/
theorem c8_check_skipped_witness :
    v3UpgradeCheck true false cfgBadToken = .ok () ∧
    startupFromConfig true false cfgBadToken [] =
      ⟨[setupSplitArgs cfgBadToken], afterSplit cfgBadToken []⟩ ∧
    (setupSplitArgs cfgBadToken).v3_upgrade_mode =
      Config.get cfgBadToken "V3_UPGRADE_MODE" :=
  c8_check_skipped true false cfgBadToken [] (Or.inl rfl)

/-- C9: the `QUAY_OVERRIDE_CONFIG` merge: with the variable unset the empty
object is merged and every key is unchanged; with it set, exactly the keys of
the parsed object are overwritten and all other keys are unchanged; and the
merge happens before the rest of startup runs, so the environment takes
precedence over file-based configuration. -/
theorem c9_environ_override (fileCfg : Config)
    (environ_config : List (String × ConfigValue)) (k : String) :
    Config.update fileCfg [] k = fileCfg k ∧
    (∀ v, environ_config.lookup k = some v →
      Config.update fileCfg environ_config k = some v) ∧
    (environ_config.lookup k = none →
      Config.update fileCfg environ_config k = fileCfg k) ∧
    (∀ t b sp, startup t b fileCfg environ_config sp =
      startupFromConfig t b (Config.update fileCfg environ_config) sp) := by
  refine ⟨rfl, ?_, ?_, fun _ _ _ => rfl⟩
  · intro v hv
    simp [Config.update, hv]
  · intro hv
    simp [Config.update, hv]

/-- C10: whenever startup completes with a final configuration, that
configuration's `SECRET_KEY` is present and is not `None`: a `None` key was
replaced by a freshly generated one before the app serves traffic. -/
theorem c10_secret_key_not_none (t b : Bool) (cfg : Config) (sp : List String)
    (final : Config)
    (h : (startupFromConfig t b cfg sp).outcome = .ok final) :
    ∃ v, final "SECRET_KEY" = some v ∧ v ≠ ConfigValue.pynone := by
  have hafter : afterSplit cfg sp = .ok final := by
    cases hv : v3UpgradeCheck t b cfg with
    | error e =>
      rw [startupFromConfig_check_error t b cfg sp e hv] at h
      exact Except.noConfusion h
    | ok u =>
      cases u
      rw [startupFromConfig_check_ok t b cfg sp hv] at h
      exact h
  unfold afterSplit at hafter
  split at hafter
  · exact Except.noConfusion hafter
  · next cfg2 heq1 =>
    split at hafter
    · exact Except.noConfusion hafter
    · next cfg3 heq2 =>
      obtain rfl : final = cfg3 := databaseKeyStep_ok cfg3 final hafter
      obtain ⟨v, hv, hvn⟩ := secretKeyStep_ok _ cfg2 heq1
      exact ⟨v, by rw [cookieStep_preserves_secret cfg2 final heq2, hv], hvn⟩

/-- C10 witness: on a configuration storing `SECRET_KEY = None`, startup
completes and the final configuration holds a generated, non-`None` secret
key. -/
theorem c10_secret_key_not_none_witness :
    ∃ v, Config.set cfgOk "SECRET_KEY" generate_secret_key "SECRET_KEY" = some v ∧
      v ≠ ConfigValue.pynone :=
  c10_secret_key_not_none false false cfgOk []
    (Config.set cfgOk "SECRET_KEY" generate_secret_key) rfl

end Quay
